import Mathlib

/-!
Shallow embedding of the `@nfactorial/net_core` connection admission and
lifecycle subsystem (SessionServer, Connection, ConnectionRequestEventArgs).

Machine state is passed explicitly; observable effects (notification fan-out
and socket-level calls) are recorded in an event trace.  Fallible operations
(argument-validation throws, JS runtime type errors) return `Except`.
-/

/-- An error descriptor exchanged at the transport boundary: an id plus a
message, mirroring the JS object shape used throughout the source. -/
structure ErrorDesc where
  id : Nat
  msg : String
deriving DecidableEq

/-- The reserved default-denial descriptor from `src/lib/connection/index.js`. -/
def SERVER_FULL : ErrorDesc := { id := 100, msg := "Server Full" }

/-- The reserved liveness-reap descriptor from `src/lib/connection/index.js`. -/
def SESSION_TERMINATED : ErrorDesc := { id := 101, msg := "Session Terminated" }

/-- The liveness window in milliseconds from `src/lib/connection/index.js`. -/
def CONNECTION_TIMEOUT : Nat := 1000 * 5

/-- Observable effects emitted by the subsystem: the three notification kinds
of `SessionServer.Events` plus socket-level close calls made on the raw
transport socket. -/
inductive NetEvent where
  /-- A `CONNECTION_REQUEST` notification broadcast (payload: the shared
  `ConnectionRequestEventArgs`). -/
  | connectionRequest : NetEvent
  /-- A `CONNECT` notification carrying the approved connection's id. -/
  | connect (connId : Nat) : NetEvent
  /-- A `DISCONNECT` notification carrying the removed connection's id. -/
  | disconnect (connId : Nat) : NetEvent
  /-- A `socket.close(errId, errMsg)` call on the socket with the given id. -/
  | socketClose (socketId : Nat) (errId : Nat) (errMsg : String) : NetEvent
deriving DecidableEq

/-- State of one `Connection` object from `src/lib/connection/index.js`
(the variant that carries a message handler, as in the file alongside
`connection_request_event_args`).  Object references are collapsed to what the
code observes: whether the `sessionServer` back-reference is non-null, whether
a `messageHandler` callback is registered, and the socket as an optional
socket identifier (`none` is JS `null`). -/
structure Connection where
  hasSessionServer : Bool
  messageHandler : Bool
  credentials : Option Unit
  socket : Option Nat
  player : Option Unit
  keepAlive : Nat
deriving DecidableEq

/-- The `Connection` constructor: throws when the session server or the
socket argument is null, otherwise initialises every field, stamping
`keepAlive` with the construction time (`Date.now()`). -/
def Connection.create (sessionServer : Option Unit) (socket : Option Nat)
    (now : Nat) : Except String Connection :=
  if sessionServer.isNone then
    .error "Cannot create connection without a valid session server object."
  else if socket.isNone then
    .error "Cannot create connection without a valid socket."
  else
    .ok { hasSessionServer := true, messageHandler := false, credentials := none,
          socket := socket, player := none, keepAlive := now }

/-- `Connection.disconnect(err)`: when the socket is still present, calls
`socket.close(err.id, err.msg)` and clears both the socket and the session
server references; the field access `err.id` on a null `err` is a JS runtime
`TypeError`.  When the socket has already been cleared the call is a no-op,
whatever `err` is.  Returns the updated connection and the socket calls made. -/
def Connection.disconnect (c : Connection) (err : Option ErrorDesc) :
    Except String (Connection × List NetEvent) :=
  match c.socket with
  | some sid =>
    match err with
    | none => .error "TypeError: cannot read property id of null"
    | some e =>
      .ok ({ c with hasSessionServer := false, socket := none },
           [NetEvent.socketClose sid e.id e.msg])
  | none => .ok (c, [])

/-- `Connection.isAlive()`: the socket reference is non-null and the elapsed
time since the last keepalive update is strictly below `CONNECTION_TIMEOUT`.
The subtraction is carried out over the integers, as in JS. -/
def Connection.isAlive (c : Connection) (now : Nat) : Bool :=
  c.socket.isSome && decide ((now : Int) - (c.keepAlive : Int) < (CONNECTION_TIMEOUT : Int))

/-- `Connection.onMessage(cb)`: registers the (single) message handler. -/
def Connection.onMessage (c : Connection) : Connection :=
  { c with messageHandler := true }

/-- `Connection._onReceiveData(msg)` (message-handler variant): when a handler
is registered, `JSON.parse` the raw data (a parse failure throws) and invoke
the handler with `(this, parsedData)`; otherwise the data is discarded.  The
parser is a parameter since message framing is owned externally; the returned
list records the handler invocations with their arguments. -/
def Connection.onReceiveData (c : Connection) (parse : String → Option String)
    (msg : String) : Except String (List (Connection × String)) :=
  if c.messageHandler then
    match parse msg with
    | none => .error "SyntaxError: unexpected token in JSON"
    | some parsedData => .ok [(c, parsedData)]
  else
    .ok []

/-- State of the shared `ConnectionRequestEventArgs` arbitration record from
`src/lib/connection_request_event_args/index.js`.  The bound connection is an
optional connection id. -/
structure ConnectionRequestEventArgs where
  _isAllowed : Bool
  _isDenied : Bool
  connection : Option Nat
  error : ErrorDesc
deriving DecidableEq

/-- The `ConnectionRequestEventArgs` constructor: default-deny state with a
copy of the `SERVER_FULL` descriptor and no bound connection. -/
def ConnectionRequestEventArgs.new : ConnectionRequestEventArgs :=
  { _isAllowed := false, _isDenied := false, connection := none,
    error := { id := SERVER_FULL.id, msg := SERVER_FULL.msg } }

/-- `ConnectionRequestEventArgs.initialize(connection)`: throws when the
connection is null; otherwise resets both flags, restores the `SERVER_FULL`
error and binds the connection. -/
def ConnectionRequestEventArgs.init (a : ConnectionRequestEventArgs)
    (connection : Option Nat) : Except String ConnectionRequestEventArgs :=
  match connection with
  | none => .error "ConnectEventArgs.initialize - Connection object was null."
  | some _ =>
    .ok { a with _isAllowed := false, _isDenied := false,
                 error := { id := SERVER_FULL.id, msg := SERVER_FULL.msg },
                 connection := connection }

/-- `ConnectionRequestEventArgs.deny(err)`: throws when `err` is null;
otherwise copies the error fields and marks the attempt denied. -/
def ConnectionRequestEventArgs.deny (a : ConnectionRequestEventArgs)
    (err : Option ErrorDesc) : Except String ConnectionRequestEventArgs :=
  match err with
  | none =>
    .error "ConnectEventArgs.deny - Invalid error code specified during connection attempt."
  | some e => .ok { a with error := { id := e.id, msg := e.msg }, _isDenied := true }

/-- `ConnectionRequestEventArgs.allow()`: marks the attempt allowed. -/
def ConnectionRequestEventArgs.allow (a : ConnectionRequestEventArgs) :
    ConnectionRequestEventArgs :=
  { a with _isAllowed := true }

/-- The `isDenied` getter: `denied OR NOT allowed` (default-deny). -/
def ConnectionRequestEventArgs.isDenied (a : ConnectionRequestEventArgs) : Bool :=
  a._isDenied || !a._isAllowed

/-- The `isAllowed` getter. -/
def ConnectionRequestEventArgs.isAllowed (a : ConnectionRequestEventArgs) : Bool :=
  a._isAllowed

/-- One verdict call made by a subscriber during a `CONNECTION_REQUEST`
broadcast: either `allow()` or `deny(err)` with a non-null error. -/
inductive SubAction where
  | allow : SubAction
  | deny (err : ErrorDesc) : SubAction
deriving DecidableEq

/-- Whether the action is an `allow()` call. -/
def SubAction.isAllowCall : SubAction → Bool
  | .allow => true
  | .deny _ => false

/-- Whether the action is a `deny(err)` call. -/
def SubAction.isDenyCall : SubAction → Bool
  | .allow => false
  | .deny _ => true

/-- Effect of one subscriber verdict call on the shared arbitration record
(`allow()` and the non-throwing branch of `deny(err)`). -/
def applyAction (a : ConnectionRequestEventArgs) (act : SubAction) :
    ConnectionRequestEventArgs :=
  match act with
  | .allow => a.allow
  | .deny e => { a with error := { id := e.id, msg := e.msg }, _isDenied := true }

/-- One synchronous arbitration broadcast: the subscribers' verdict calls hit
the shared record in order. -/
def arbitrate (a : ConnectionRequestEventArgs) (actions : List SubAction) :
    ConnectionRequestEventArgs :=
  actions.foldl applyAction a

/-- The error of the last `deny(err)` call in an action sequence, if any. -/
def lastDenyErr : List SubAction → Option ErrorDesc
  | [] => none
  | SubAction.allow :: rest => lastDenyErr rest
  | SubAction.deny e :: rest => some ((lastDenyErr rest).getD e)

/-- Registry state of the `SessionServer` from the source: the ordered list of
live connection ids and the shared, reused arbitration record.  (The HTTP and
SockJS transport plumbing carries no registry semantics and is external.) -/
structure SessionServer where
  connectionList : List Nat
  connectionRequestArgs : ConnectionRequestEventArgs
deriving DecidableEq

/-- The `SessionServer` constructor's registry state. -/
def SessionServer.new : SessionServer :=
  { connectionList := [], connectionRequestArgs := ConnectionRequestEventArgs.new }

/-- `SessionServer.removeConnection(connection)`: throws when the connection is
null; when the connection is not in the list (`indexOf === -1`) only a report
is logged and nothing changes; otherwise the first occurrence is spliced out
and one `DISCONNECT` notification fires with the removed connection. -/
def SessionServer.removeConnection (s : SessionServer) (connection : Option Nat) :
    Except String (SessionServer × List NetEvent) :=
  match connection with
  | none => .error "SessionServer.removeConnection - No connection was specified."
  | some cid =>
    if cid ∈ s.connectionList then
      .ok ({ s with connectionList := s.connectionList.erase cid },
           [NetEvent.disconnect cid])
    else
      .ok (s, [])

/-- Whole-system state: the registry, the allocated `Connection` objects keyed
by id, the fresh-id counter, the trace of observable events so far, and the
ghost record of which attempts were approved (needed only to state the
registry invariant). -/
structure SystemState where
  server : SessionServer
  conns : Nat → Option Connection
  nextId : Nat
  approvedIds : List Nat
  trace : List NetEvent

/-- The initial system state: a freshly constructed `SessionServer`, no
connections, nothing approved, empty trace. -/
def SystemState.init : SystemState :=
  { server := SessionServer.new, conns := fun _ => none, nextId := 0,
    approvedIds := [], trace := [] }

/-- `SessionServer._onConnectionAttempt(socket)`: wrap the fresh socket in a
new `Connection`, initialise the shared arbitration record with it, broadcast
`CONNECTION_REQUEST` (during which the subscribers perform `actions` on the
record), forcibly null the record's connection reference, then read the
verdict: on denial close the raw socket with the recorded error and leave the
registry untouched; on approval push the connection and broadcast `CONNECT`.
Each attempt allocates id `nextId` for both the connection and its socket. -/
def stepAttempt (s : SystemState) (now : Nat) (actions : List SubAction) :
    SystemState :=
  match Connection.create (some ()) (some s.nextId) now with
  | .error _ => s
  | .ok conn =>
    match s.server.connectionRequestArgs.init (some s.nextId) with
    | .error _ => s
    | .ok args0 =>
      let args1 := arbitrate args0 actions
      let args2 := { args1 with connection := none }
      if args2.isDenied then
        { server := { s.server with connectionRequestArgs := args2 },
          conns := fun i => if i = s.nextId then some conn else s.conns i,
          nextId := s.nextId + 1,
          approvedIds := s.approvedIds,
          trace := s.trace ++ [NetEvent.connectionRequest,
            NetEvent.socketClose s.nextId args2.error.id args2.error.msg] }
      else
        { server :=
            { s.server with
              connectionRequestArgs := args2
              connectionList := s.server.connectionList ++ [s.nextId] },
          conns := fun i => if i = s.nextId then some conn else s.conns i,
          nextId := s.nextId + 1,
          approvedIds := s.approvedIds ++ [s.nextId],
          trace := s.trace ++ [NetEvent.connectionRequest, NetEvent.connect s.nextId] }

/-- An explicit `Connection.disconnect(err)` call on connection `cid` with a
non-null error, as an atomic system event.  The registry is not consulted:
`disconnect` only closes the socket and clears the connection's own
references. -/
def stepDisconnect (s : SystemState) (cid : Nat) (err : ErrorDesc) : SystemState :=
  match s.conns cid with
  | none => s
  | some c =>
    match c.disconnect (some err) with
    | .error _ => s
    | .ok (c1, evs) =>
      { s with conns := fun i => if i = cid then some c1 else s.conns i,
               trace := s.trace ++ evs }

/-- A direct external `SessionServer.removeConnection(connection)` call on a
non-null connection, as an atomic system event. -/
def stepRemove (s : SystemState) (cid : Nat) : SystemState :=
  match s.server.removeConnection (some cid) with
  | .error _ => s
  | .ok (srv1, evs) => { s with server := srv1, trace := s.trace ++ evs }

/-- `Connection._onSocketClosed()` delivered for connection `cid` when its
transport signals closure: the connection clears its socket reference and, if
it still holds the session-server back-reference, asks the registry to remove
it. -/
def stepTransportClose (s : SystemState) (cid : Nat) : SystemState :=
  match s.conns cid with
  | none => s
  | some c =>
    if c.hasSessionServer then
      match s.server.removeConnection (some cid) with
      | .error _ => s
      | .ok (srv1, evs) =>
        { s with server := srv1,
                 conns := fun i => if i = cid then some { c with socket := none } else s.conns i,
                 trace := s.trace ++ evs }
    else
      { s with conns := fun i => if i = cid then some { c with socket := none } else s.conns i }

/-- One system transition: a connection attempt with the subscribers' verdict
calls, a direct `removeConnection` call, an explicit `disconnect`, or a
transport-close delivery. -/
inductive Step : SystemState → SystemState → Prop where
  | attempt (s : SystemState) (now : Nat) (actions : List SubAction) :
      Step s (stepAttempt s now actions)
  | removeConn (s : SystemState) (cid : Nat) : Step s (stepRemove s cid)
  | disconnectConn (s : SystemState) (cid : Nat) (err : ErrorDesc) :
      Step s (stepDisconnect s cid err)
  | transportClose (s : SystemState) (cid : Nat) : Step s (stepTransportClose s cid)

/-- Reachability from the initial state under arbitrary event sequences. -/
def Reachable (s : SystemState) : Prop :=
  Relation.ReflTransGen Step SystemState.init s

/-- One transition along the code's own internal paths only: connection
attempts and transport-close deliveries. -/
inductive CoreStep : SystemState → SystemState → Prop where
  | attempt (s : SystemState) (now : Nat) (actions : List SubAction) :
      CoreStep s (stepAttempt s now actions)
  | transportClose (s : SystemState) (cid : Nat) : CoreStep s (stepTransportClose s cid)

/-- Reachability from the initial state along the code's own paths. -/
def CoreReachable (s : SystemState) : Prop :=
  Relation.ReflTransGen CoreStep SystemState.init s

/-- The spec's registry invariant: an allocated connection is a member of the
live list exactly when its attempt was approved and its socket reference has
not yet been cleared (by explicit disconnect or transport close). -/
def RegistryInvariant (s : SystemState) : Prop :=
  ∀ cid c, s.conns cid = some c →
    (cid ∈ s.server.connectionList ↔ cid ∈ s.approvedIds ∧ c.socket ≠ none)

/-- The inductive strengthening of the registry invariant: allocated ids are
below the fresh-id counter and keep their back-reference, listed ids are
allocated, the live list has no duplicates, approved ids are bounded, and the
registry invariant itself. -/
def FullInv (s : SystemState) : Prop :=
  (∀ cid c, s.conns cid = some c → cid < s.nextId ∧ c.hasSessionServer = true) ∧
  (∀ cid, cid ∈ s.server.connectionList → ∃ c, s.conns cid = some c) ∧
  s.server.connectionList.Nodup ∧
  (∀ cid, cid ∈ s.approvedIds → cid < s.nextId) ∧
  RegistryInvariant s

/-- The arbitration record as `_onConnectionAttempt` leaves it: freshly
initialised for connection `s.nextId`, hit by the subscribers' verdict calls,
then its connection reference forcibly nulled. -/
def attemptArgs (s : SystemState) (actions : List SubAction) : ConnectionRequestEventArgs :=
  { arbitrate { _isAllowed := false, _isDenied := false, connection := some s.nextId,
                error := { id := SERVER_FULL.id, msg := SERVER_FULL.msg } } actions
    with connection := none }

/-- The `Connection` object freshly constructed by `_onConnectionAttempt` for
socket `cid` at time `now`. -/
def newConn (cid now : Nat) : Connection :=
  { hasSessionServer := true, messageHandler := false, credentials := none,
    socket := some cid, player := none, keepAlive := now }

/-- Unfolding of `stepAttempt` into its two verdict branches. -/
theorem stepAttempt_unfold (s : SystemState) (now : Nat) (actions : List SubAction) :
    stepAttempt s now actions =
      if (attemptArgs s actions).isDenied then
        { server := { s.server with connectionRequestArgs := attemptArgs s actions },
          conns := fun i => if i = s.nextId then some (newConn s.nextId now) else s.conns i,
          nextId := s.nextId + 1,
          approvedIds := s.approvedIds,
          trace := s.trace ++ [NetEvent.connectionRequest,
            NetEvent.socketClose s.nextId (attemptArgs s actions).error.id (attemptArgs s actions).error.msg] }
      else
        { server :=
            { s.server with
              connectionRequestArgs := attemptArgs s actions
              connectionList := s.server.connectionList ++ [s.nextId] },
          conns := fun i => if i = s.nextId then some (newConn s.nextId now) else s.conns i,
          nextId := s.nextId + 1,
          approvedIds := s.approvedIds ++ [s.nextId],
          trace := s.trace ++ [NetEvent.connectionRequest, NetEvent.connect s.nextId] } := rfl

/-- The `_isAllowed` flag after an arbitration pass: set exactly when some
subscriber called `allow()` (or it was set before the pass). -/
theorem arbitrate_isAllowedFlag (actions : List SubAction) :
    ∀ a : ConnectionRequestEventArgs,
      (arbitrate a actions)._isAllowed = (a._isAllowed || actions.any SubAction.isAllowCall) := by
  induction actions with
  | nil => intro a; simp [arbitrate]
  | cons act rest ih =>
    intro a
    cases act with
    | allow =>
      simp only [arbitrate, List.foldl_cons, applyAction] at *
      rw [ih]
      simp [ConnectionRequestEventArgs.allow, SubAction.isAllowCall]
    | deny e =>
      simp only [arbitrate, List.foldl_cons, applyAction] at *
      rw [ih]
      simp [SubAction.isAllowCall]

/-- The `_isDenied` flag after an arbitration pass: set exactly when some
subscriber called `deny(err)` (or it was set before the pass). -/
theorem arbitrate_isDeniedFlag (actions : List SubAction) :
    ∀ a : ConnectionRequestEventArgs,
      (arbitrate a actions)._isDenied = (a._isDenied || actions.any SubAction.isDenyCall) := by
  induction actions with
  | nil => intro a; simp [arbitrate]
  | cons act rest ih =>
    intro a
    cases act with
    | allow =>
      simp only [arbitrate, List.foldl_cons, applyAction] at *
      rw [ih]
      simp [ConnectionRequestEventArgs.allow, SubAction.isDenyCall]
    | deny e =>
      simp only [arbitrate, List.foldl_cons, applyAction] at *
      rw [ih]
      simp [SubAction.isDenyCall]

/-- The error descriptor after an arbitration pass: the last `deny(err)`'s
error, or the initial one when nobody denied. -/
theorem arbitrate_errorEq (actions : List SubAction) :
    ∀ a : ConnectionRequestEventArgs,
      (arbitrate a actions).error = (lastDenyErr actions).getD a.error := by
  induction actions with
  | nil => intro a; simp [arbitrate, lastDenyErr]
  | cons act rest ih =>
    intro a
    cases act with
    | allow =>
      simp only [arbitrate, List.foldl_cons, applyAction, lastDenyErr] at *
      rw [ih]
      simp [ConnectionRequestEventArgs.allow]
    | deny e =>
      simp only [arbitrate, List.foldl_cons, applyAction, lastDenyErr] at *
      rw [ih]
      cases h : lastDenyErr rest <;> simp [h]

/-- A sequence with a recorded last `deny` does contain a `deny` call. -/
theorem lastDenyErr_some_isDeny (actions : List SubAction) (e : ErrorDesc)
    (h : lastDenyErr actions = some e) : actions.any SubAction.isDenyCall = true := by
  induction actions with
  | nil => simp [lastDenyErr] at h
  | cons act rest ih =>
    cases act with
    | allow =>
      simp only [lastDenyErr] at h
      simp [SubAction.isDenyCall, ih h]
    | deny e2 => simp [SubAction.isDenyCall]

/-- When some subscriber denied, the attempt's final arbitration record is
denied and carries the last denial's error. -/
theorem attemptArgs_denied_of_lastDeny (s : SystemState) (actions : List SubAction)
    (e : ErrorDesc) (h : lastDenyErr actions = some e) :
    (attemptArgs s actions).isDenied = true ∧ (attemptArgs s actions).error = e := by
  constructor
  · simp [attemptArgs, ConnectionRequestEventArgs.isDenied, arbitrate_isDeniedFlag,
      lastDenyErr_some_isDeny actions e h]
  · simp [attemptArgs, arbitrate_errorEq, h]

/-- A connection-attempt event preserves the strengthened registry invariant. -/
theorem fullInv_stepAttempt (s : SystemState) (now : Nat) (actions : List SubAction)
    (h : FullInv s) : FullInv (stepAttempt s now actions) := by
  obtain ⟨h1, h2, h3, h4, h5⟩ := h
  have hfresh : ∀ cid, cid ∈ s.server.connectionList → cid ≠ s.nextId := by
    intro cid hm
    obtain ⟨c, hc⟩ := h2 _ hm
    exact Nat.ne_of_lt (h1 _ _ hc).1
  have hnotmem : s.nextId ∉ s.server.connectionList := fun hm =>
    absurd rfl (hfresh _ hm)
  have hnotapp : s.nextId ∉ s.approvedIds := fun hm => absurd (h4 _ hm) (lt_irrefl _)
  rw [stepAttempt_unfold]
  by_cases hden : (attemptArgs s actions).isDenied = true
  · rw [if_pos hden]
    refine ⟨?_, ?_, h3, ?_, ?_⟩
    · intro cid c hc
      by_cases hcid : cid = s.nextId
      · subst hcid
        simp only [if_pos rfl] at hc
        cases hc
        exact ⟨Nat.lt_succ_self _, rfl⟩
      · simp only [if_neg hcid] at hc
        exact ⟨Nat.lt_succ_of_lt (h1 _ _ hc).1, (h1 _ _ hc).2⟩
    · intro cid hm
      obtain ⟨c, hc⟩ := h2 _ hm
      refine ⟨c, ?_⟩
      simp only [if_neg (hfresh _ hm)]
      exact hc
    · intro cid hm
      exact Nat.lt_succ_of_lt (h4 _ hm)
    · intro cid c hc
      by_cases hcid : cid = s.nextId
      · subst hcid
        simp only at hc ⊢
        constructor
        · intro hm; exact absurd hm hnotmem
        · rintro ⟨hm, -⟩; exact absurd hm hnotapp
      · simp only [if_neg hcid] at hc
        exact h5 _ _ hc
  · rw [if_neg hden]
    refine ⟨?_, ?_, ?_, ?_, ?_⟩
    · intro cid c hc
      by_cases hcid : cid = s.nextId
      · subst hcid
        simp only [if_pos rfl] at hc
        cases hc
        exact ⟨Nat.lt_succ_self _, rfl⟩
      · simp only [if_neg hcid] at hc
        exact ⟨Nat.lt_succ_of_lt (h1 _ _ hc).1, (h1 _ _ hc).2⟩
    · intro cid hm
      simp only [List.mem_append, List.mem_singleton] at hm
      rcases hm with hm | hm
      · obtain ⟨c, hc⟩ := h2 _ hm
        refine ⟨c, ?_⟩
        simp only [if_neg (hfresh _ hm)]
        exact hc
      · subst hm
        exact ⟨newConn s.nextId now, by simp⟩
    · simp only [List.nodup_append, List.nodup_singleton, List.disjoint_singleton]
      exact ⟨h3, trivial, hnotmem⟩
    · intro cid hm
      simp only [List.mem_append, List.mem_singleton] at hm
      rcases hm with hm | hm
      · exact Nat.lt_succ_of_lt (h4 _ hm)
      · subst hm; exact Nat.lt_succ_self _
    · intro cid c hc
      by_cases hcid : cid = s.nextId
      · subst hcid
        simp only [if_pos rfl] at hc
        cases hc
        simp [newConn]
      · simp only [if_neg hcid] at hc
        have := h5 _ _ hc
        simp only [List.mem_append, List.mem_singleton, hcid, or_false]
        exact this

/-- Unfolding of a transport-close delivery for an allocated connection that
still holds its session-server back-reference. -/
theorem stepTransportClose_unfold (s : SystemState) (cid : Nat) (c : Connection)
    (hc : s.conns cid = some c) (hss : c.hasSessionServer = true) :
    stepTransportClose s cid =
      if cid ∈ s.server.connectionList then
        { s with
          server := { s.server with connectionList := s.server.connectionList.erase cid },
          conns := fun i => if i = cid then some { c with socket := none } else s.conns i,
          trace := s.trace ++ [NetEvent.disconnect cid] }
      else
        { s with
          conns := fun i => if i = cid then some { c with socket := none } else s.conns i,
          trace := s.trace ++ [] } := by
  unfold stepTransportClose SessionServer.removeConnection
  rw [hc]
  simp only [hss, if_true]
  by_cases hmem : cid ∈ s.server.connectionList
  · rw [if_pos hmem, if_pos hmem]
  · rw [if_neg hmem, if_neg hmem]

/-- A transport-close delivery preserves the strengthened registry invariant. -/
theorem fullInv_stepTransportClose (s : SystemState) (cid : Nat)
    (h : FullInv s) : FullInv (stepTransportClose s cid) := by
  obtain ⟨h1, h2, h3, h4, h5⟩ := h
  cases hc : s.conns cid with
  | none =>
    have hs : stepTransportClose s cid = s := by
      unfold stepTransportClose; rw [hc]
    rw [hs]
    exact ⟨h1, h2, h3, h4, h5⟩
  | some c =>
    have hss : c.hasSessionServer = true := (h1 _ _ hc).2
    rw [stepTransportClose_unfold s cid c hc hss]
    by_cases hmem : cid ∈ s.server.connectionList
    · rw [if_pos hmem]
      dsimp only
      refine ⟨?_, ?_, h3.erase _, h4, ?_⟩
      · intro cid' c' hc'
        by_cases hcid : cid' = cid
        · subst hcid
          simp only [if_pos rfl] at hc'
          cases hc'
          exact ⟨(h1 _ _ hc).1, hss⟩
        · simp only [if_neg hcid] at hc'
          exact h1 _ _ hc'
      · intro cid' hm'
        have hm2 : cid' ∈ s.server.connectionList := List.erase_subset _ _ hm'
        by_cases hcid : cid' = cid
        · subst hcid
          exact ⟨{ c with socket := none }, by simp⟩
        · obtain ⟨c', hc'⟩ := h2 _ hm2
          exact ⟨c', by simp only [if_neg hcid]; exact hc'⟩
      · intro cid' c' hc'
        by_cases hcid : cid' = cid
        · subst hcid
          simp only [if_pos rfl] at hc'
          cases hc'
          simp only [h3.mem_erase_iff, ne_eq, not_true_eq_false, false_and, false_iff]
          rintro ⟨-, hsock⟩
          exact hsock
        · simp only [if_neg hcid] at hc'
          have := h5 _ _ hc'
          simp only [h3.mem_erase_iff, ne_eq, hcid, not_false_eq_true, true_and]
          exact this
    · rw [if_neg hmem]
      refine ⟨?_, ?_, h3, h4, ?_⟩
      · intro cid' c' hc'
        by_cases hcid : cid' = cid
        · subst hcid
          simp only [if_pos rfl] at hc'
          cases hc'
          exact ⟨(h1 _ _ hc).1, hss⟩
        · simp only [if_neg hcid] at hc'
          exact h1 _ _ hc'
      · intro cid' hm'
        by_cases hcid : cid' = cid
        · subst hcid
          exact ⟨{ c with socket := none }, by simp⟩
        · obtain ⟨c', hc'⟩ := h2 _ hm'
          exact ⟨c', by simp only [if_neg hcid]; exact hc'⟩
      · intro cid' c' hc'
        by_cases hcid : cid' = cid
        · subst hcid
          simp only [if_pos rfl] at hc'
          cases hc'
          simp only
          constructor
          · intro hm; exact absurd hm hmem
          · rintro ⟨-, hsock⟩; exact absurd rfl hsock
        · simp only [if_neg hcid] at hc'
          exact h5 _ _ hc'

/-- Every state reachable along the code's own event paths satisfies the
strengthened registry invariant. -/
theorem coreReachable_fullInv (s : SystemState) (h : CoreReachable s) : FullInv s := by
  induction h with
  | refl =>
    refine ⟨?_, ?_, ?_, ?_, ?_⟩
    · intro cid c hc
      simp [SystemState.init] at hc
    · intro cid hm
      simp [SystemState.init, SessionServer.new] at hm
    · simp [SystemState.init, SessionServer.new]
    · intro cid hm
      simp [SystemState.init] at hm
    · intro cid c hc
      simp [SystemState.init] at hc
  | tail _ hstep ih =>
    cases hstep with
    | attempt now actions => exact fullInv_stepAttempt _ _ _ ih
    | transportClose cid => exact fullInv_stepTransportClose _ _ ih

/-- Extensionality for whole-system states. -/
theorem SystemState.exten (a b : SystemState) (h1 : a.server = b.server)
    (h2 : ∀ i, a.conns i = b.conns i) (h3 : a.nextId = b.nextId)
    (h4 : a.approvedIds = b.approvedIds) (h5 : a.trace = b.trace) : a = b := by
  obtain ⟨sa, ca, na, aa, ta⟩ := a
  obtain ⟨sb, cb, nb, ab, tb⟩ := b
  dsimp only at h1 h2 h3 h4 h5
  subst h1; subst h3; subst h4; subst h5
  exact congrArg (fun f => SystemState.mk sa f na aa ta) (funext h2)

/-- An explicit `disconnect` event on a connection whose socket is already
cleared leaves the whole system state unchanged. -/
theorem stepDisconnect_noop (s : SystemState) (cid : Nat) (e : ErrorDesc)
    (c : Connection) (hc : s.conns cid = some c) (hsock : c.socket = none) :
    stepDisconnect s cid e = s := by
  have hstep : stepDisconnect s cid e =
      { s with conns := fun i => if i = cid then some c else s.conns i,
               trace := s.trace ++ [] } := by
    unfold stepDisconnect Connection.disconnect
    rw [hc]
    dsimp only
    rw [hsock]
  rw [hstep]
  apply SystemState.exten
  · rfl
  · intro i
    by_cases hi : i = cid
    · subst hi; simp [hc]
    · simp [hi]
  · rfl
  · rfl
  · simp

/-- C1: an admission attempt in which no subscriber calls allow() or deny()
resolves as denied with the default descriptor `{id: 100, msg: "Server Full"}`,
closes the raw socket with that id and message, and leaves the registry's live
list unchanged, so the new connection is never added. -/
theorem netcore_C1 (s : SystemState) (now : Nat) :
    (stepAttempt s now []).server.connectionRequestArgs.isDenied = true ∧
    (stepAttempt s now []).server.connectionRequestArgs.error = SERVER_FULL ∧
    (stepAttempt s now []).trace = s.trace ++ [NetEvent.connectionRequest,
      NetEvent.socketClose s.nextId SERVER_FULL.id SERVER_FULL.msg] ∧
    (stepAttempt s now []).server.connectionList = s.server.connectionList :=
  ⟨rfl, rfl, rfl, rfl⟩

/-- C2: when some subscriber calls deny(err), the attempt resolves as denied
with the last deny's error regardless of interleaved allow() calls, the raw
socket is closed with that error's id and msg, and the live list is
unchanged. -/
theorem netcore_C2 (s : SystemState) (now : Nat) (actions : List SubAction)
    (e : ErrorDesc) (h : lastDenyErr actions = some e) :
    (stepAttempt s now actions).server.connectionRequestArgs.isDenied = true ∧
    (stepAttempt s now actions).server.connectionRequestArgs.error = e ∧
    (stepAttempt s now actions).trace
      = s.trace ++ [NetEvent.connectionRequest, NetEvent.socketClose s.nextId e.id e.msg] ∧
    (stepAttempt s now actions).server.connectionList = s.server.connectionList := by
  obtain ⟨hd, he⟩ := attemptArgs_denied_of_lastDeny s actions e h
  rw [stepAttempt_unfold, if_pos hd]
  exact ⟨hd, he, by rw [he], rfl⟩

/-- Witness for C2 at a concrete interleaving: allow() then deny({42,
"banned"}) then allow() ends denied with the deny's descriptor. -/
theorem netcore_C2_witness :
    (stepAttempt SystemState.init 0
        [SubAction.allow, SubAction.deny { id := 42, msg := "banned" }, SubAction.allow]
      ).server.connectionRequestArgs.error = { id := 42, msg := "banned" } ∧
    (stepAttempt SystemState.init 0
        [SubAction.allow, SubAction.deny { id := 42, msg := "banned" }, SubAction.allow]
      ).server.connectionList = [] :=
  ⟨(netcore_C2 SystemState.init 0
      [SubAction.allow, SubAction.deny { id := 42, msg := "banned" }, SubAction.allow]
      { id := 42, msg := "banned" } rfl).2.1,
   (netcore_C2 SystemState.init 0
      [SubAction.allow, SubAction.deny { id := 42, msg := "banned" }, SubAction.allow]
      { id := 42, msg := "banned" } rfl).2.2.2⟩

/-- C4: an admission attempt in which exactly one subscriber calls allow()
and nobody denies is approved: the connection id is appended to the live list,
the attempt's trace is the CONNECTION_REQUEST broadcast followed by exactly
one CONNECT notification carrying that connection, and no socket close is
issued; the allocated connection wraps the attempt's socket. -/
theorem netcore_C4 (s : SystemState) (now : Nat) :
    (stepAttempt s now [SubAction.allow]).server.connectionRequestArgs.isDenied = false ∧
    (stepAttempt s now [SubAction.allow]).server.connectionList
      = s.server.connectionList ++ [s.nextId] ∧
    (stepAttempt s now [SubAction.allow]).trace
      = s.trace ++ [NetEvent.connectionRequest, NetEvent.connect s.nextId] ∧
    (stepAttempt s now [SubAction.allow]).conns s.nextId = some (newConn s.nextId now) :=
  ⟨rfl, rfl, rfl, if_pos rfl⟩

/-- C3 (counterexample): the registry invariant does not hold in every state
reachable under arbitrary sequences of the four events.  Concretely: approve a
connection, then call `Connection.disconnect` on it — the connection has
disconnected (its socket is cleared) yet it is still a member of the live
list, because `disconnect` nulls the session-server back-reference without
asking the registry to remove the connection. -/
theorem netcore_C3_counterexample :
    ¬ (∀ s : SystemState, Reachable s → RegistryInvariant s) := by
  intro h
  have hr : Reachable (stepDisconnect (stepAttempt SystemState.init 0 [SubAction.allow]) 0
      { id := 42, msg := "boot" }) :=
    Relation.ReflTransGen.tail
      (Relation.ReflTransGen.tail Relation.ReflTransGen.refl
        (Step.attempt SystemState.init 0 [SubAction.allow]))
      (Step.disconnectConn (stepAttempt SystemState.init 0 [SubAction.allow]) 0
        { id := 42, msg := "boot" })
  have h2 := h _ hr 0
    { hasSessionServer := false, messageHandler := false, credentials := none,
      socket := none, player := none, keepAlive := 0 } rfl
  exact absurd (h2.mp (by decide)) (by decide)

/-- C3 (amended): along the code's own event paths — connection attempts and
transport-close deliveries, the only places the source itself mutates the
registry — every reachable state satisfies the registry invariant: an
allocated connection is in the live list iff its attempt was approved and its
socket has not yet been cleared. -/
theorem netcore_C3_amended (s : SystemState) (h : CoreReachable s) :
    RegistryInvariant s :=
  (coreReachable_fullInv s h).2.2.2.2

/-- Witness for the amended C3 at a concrete reachable state: one approved
attempt followed by its transport close. -/
theorem netcore_C3_amended_witness :
    RegistryInvariant
      (stepTransportClose (stepAttempt SystemState.init 0 [SubAction.allow]) 0) :=
  netcore_C3_amended _
    (Relation.ReflTransGen.tail
      (Relation.ReflTransGen.tail Relation.ReflTransGen.refl
        (CoreStep.attempt SystemState.init 0 [SubAction.allow]))
      (CoreStep.transportClose (stepAttempt SystemState.init 0 [SubAction.allow]) 0))

/-- C5: `removeConnection` throws the InvalidArgument error on a null
connection; on a connection absent from the live list it changes nothing and
fires no notification; on a present connection it removes exactly that
connection (first occurrence spliced out, every other id untouched, length
down by one) and fires exactly one DISCONNECT notification carrying it. -/
theorem netcore_C5 (s : SessionServer) (cid : Nat) :
    s.removeConnection none
      = Except.error "SessionServer.removeConnection - No connection was specified." ∧
    (cid ∉ s.connectionList → s.removeConnection (some cid) = Except.ok (s, [])) ∧
    (cid ∈ s.connectionList →
      s.removeConnection (some cid)
        = Except.ok ({ s with connectionList := s.connectionList.erase cid },
                     [NetEvent.disconnect cid]) ∧
      (s.connectionList.erase cid).length + 1 = s.connectionList.length ∧
      (∀ x, x ≠ cid → (x ∈ s.connectionList.erase cid ↔ x ∈ s.connectionList))) := by
  refine ⟨rfl, ?_, ?_⟩
  · intro hnm
    simp [SessionServer.removeConnection, hnm]
  · intro hm
    refine ⟨?_, ?_, ?_⟩
    · simp [SessionServer.removeConnection, hm]
    · rw [List.length_erase_of_mem hm]
      have hpos : 0 < s.connectionList.length := List.length_pos.mpr
        (fun he => by simp [he] at hm)
      omega
    · intro x hx
      constructor
      · intro hmm; exact List.mem_of_mem_erase hmm
      · intro hmm; exact List.mem_erase_of_ne hx |>.mpr hmm

/-- Witness for C5 at concrete registries: removing a registered id splices
it out and fires one DISCONNECT; removing an unregistered id is a no-op. -/
theorem netcore_C5_witness :
    SessionServer.removeConnection
        { connectionList := [4, 7], connectionRequestArgs := ConnectionRequestEventArgs.new }
        (some 7)
      = Except.ok ({ connectionList := [4],
                     connectionRequestArgs := ConnectionRequestEventArgs.new },
                   [NetEvent.disconnect 7]) ∧
    SessionServer.removeConnection
        { connectionList := [4, 7], connectionRequestArgs := ConnectionRequestEventArgs.new }
        (some 9)
      = Except.ok ({ connectionList := [4, 7],
                     connectionRequestArgs := ConnectionRequestEventArgs.new }, []) :=
  ⟨((netcore_C5
        { connectionList := [4, 7], connectionRequestArgs := ConnectionRequestEventArgs.new }
        7).2.2 (by decide)).1.trans (by rfl),
   (netcore_C5
        { connectionList := [4, 7], connectionRequestArgs := ConnectionRequestEventArgs.new }
        9).2.1 (by decide)⟩

/-- C6 (counterexample): `Connection.disconnect` passed a null error raises no
InvalidArgument condition at all when the socket has already been cleared —
the call silently succeeds as a no-op, contradicting the claim that a null
error always fails. -/
theorem netcore_C6_counterexample :
    Connection.disconnect
      { hasSessionServer := false, messageHandler := false, credentials := none,
        socket := none, player := none, keepAlive := 0 } none
      = Except.ok ({ hasSessionServer := false, messageHandler := false,
                     credentials := none, socket := none, player := none,
                     keepAlive := 0 }, []) := rfl

/-- C6 (amended): `Connection.disconnect` performs no validation of its error
argument.  When the socket has already been cleared the call is a silent
no-op whatever the error argument, even null.  When the socket is present, a
null error fails only with a runtime TypeError from reading `err.id` — not an
InvalidArgument check — while a non-null error closes the socket with the
error's id and msg and clears both the socket and the session-server
references. -/
theorem netcore_C6_amended (c : Connection) (err : Option ErrorDesc) :
    c.disconnect err =
      match c.socket, err with
      | none, _ => Except.ok (c, [])
      | some _, none => Except.error "TypeError: cannot read property id of null"
      | some sid, some e =>
        Except.ok ({ c with hasSessionServer := false, socket := none },
                   [NetEvent.socketClose sid e.id e.msg]) := by
  obtain ⟨hs, mh, cr, sock, pl, ka⟩ := c
  cases sock <;> cases err <;> rfl

/-- C7: `Connection.disconnect` is idempotent at the whole-system level: a
second disconnect of the same connection with the same non-null error yields
exactly the state of the first — no further socket close, no error, no
additional notification in the trace, and an unchanged registry. -/
theorem netcore_C7 (s : SystemState) (cid : Nat) (e : ErrorDesc) :
    stepDisconnect (stepDisconnect s cid e) cid e = stepDisconnect s cid e := by
  cases hc : s.conns cid with
  | none =>
    have hs : stepDisconnect s cid e = s := by
      unfold stepDisconnect; rw [hc]
    rw [hs]
    exact hs
  | some c =>
    cases hsock : c.socket with
    | none =>
      simp only [stepDisconnect_noop s cid e c hc hsock]
    | some sid =>
      have h1 : stepDisconnect s cid e =
          { s with
            conns := fun i => if i = cid then
              some { c with hasSessionServer := false, socket := none } else s.conns i,
            trace := s.trace ++ [NetEvent.socketClose sid e.id e.msg] } := by
        unfold stepDisconnect Connection.disconnect
        rw [hc]
        dsimp only
        rw [hsock]
      rw [h1]
      apply stepDisconnect_noop _ cid e { c with hasSessionServer := false, socket := none }
      · exact if_pos rfl
      · rfl

/-- C8: `isAlive` returns true iff the socket reference is non-null and the
elapsed time since the last keepalive update is strictly below the 5000 ms
window; a freshly constructed connection is alive at its construction time,
and any connection whose keepalive timestamp is at least a full window old is
not alive. -/
theorem netcore_C8 (c : Connection) (now now2 : Nat) :
    (c.isAlive now = true ↔
      c.socket ≠ none ∧ (now : Int) - (c.keepAlive : Int) < 5000) ∧
    (∀ srv sock c0, Connection.create srv sock now = Except.ok c0 →
      c0.isAlive now = true) ∧
    (c.keepAlive + CONNECTION_TIMEOUT ≤ now2 → c.isAlive now2 = false) := by
  refine ⟨?_, ?_, ?_⟩
  · simp only [Connection.isAlive, CONNECTION_TIMEOUT, Bool.and_eq_true,
      decide_eq_true_eq, Option.isSome_iff_ne_none]
    norm_num
  · intro srv sock c0 hcreate
    cases srv with
    | none => simp [Connection.create] at hcreate
    | some u =>
      cases sock with
      | none => simp [Connection.create] at hcreate
      | some sid =>
        simp only [Connection.create, Option.isNone_some, Bool.false_eq_true, if_false,
          Except.ok.injEq] at hcreate
        subst hcreate
        simp only [Connection.isAlive, CONNECTION_TIMEOUT, Option.isSome_some,
          Bool.true_and, decide_eq_true_eq]
        omega
  · intro hle
    unfold Connection.isAlive
    have hP : decide ((now2 : Int) - (c.keepAlive : Int) < ((CONNECTION_TIMEOUT : Nat) : Int)) = false := by
      apply decide_eq_false
      simp only [CONNECTION_TIMEOUT] at hle ⊢
      push_cast
      omega
    rw [hP, Bool.and_false]

/-- Witness for C8 at concrete inputs: a connection with keepalive 0 is dead
at time 6000, and a connection freshly created at time 0 is alive at time 0. -/
theorem netcore_C8_witness :
    Connection.isAlive
      { hasSessionServer := true, messageHandler := false, credentials := none,
        socket := some 0, player := none, keepAlive := 0 } 6000 = false ∧
    Connection.isAlive
      { hasSessionServer := true, messageHandler := false, credentials := none,
        socket := some 3, player := none, keepAlive := 0 } 0 = true :=
  ⟨(netcore_C8
      { hasSessionServer := true, messageHandler := false, credentials := none,
        socket := some 0, player := none, keepAlive := 0 } 0 6000).2.2 (by decide),
   (netcore_C8
      { hasSessionServer := true, messageHandler := false, credentials := none,
        socket := some 0, player := none, keepAlive := 0 } 0 0).2.1
      (some ()) (some 3)
      { hasSessionServer := true, messageHandler := false, credentials := none,
        socket := some 3, player := none, keepAlive := 0 } rfl⟩

/-- C9: on receipt of raw transport data, a connection with a registered
message callback invokes it exactly once with the connection itself and the
parsed message; a connection with no registered callback discards the data
with no handler invocation and no error. -/
theorem netcore_C9 (c : Connection) (parse : String → Option String)
    (msg pm : String) :
    (c.messageHandler = true → parse msg = some pm →
      c.onReceiveData parse msg = Except.ok [(c, pm)]) ∧
    (c.messageHandler = false → c.onReceiveData parse msg = Except.ok []) := by
  constructor
  · intro hm hp
    simp [Connection.onReceiveData, hm, hp]
  · intro hm
    simp [Connection.onReceiveData, hm]

/-- Witness for C9 at concrete inputs: with a handler registered the parsed
message is delivered to it; without one the data is dropped. -/
theorem netcore_C9_witness :
    Connection.onReceiveData
      { hasSessionServer := true, messageHandler := true, credentials := none,
        socket := some 0, player := none, keepAlive := 0 } (fun s => some s) "ping"
      = Except.ok [({ hasSessionServer := true, messageHandler := true, credentials := none,
                      socket := some 0, player := none, keepAlive := 0 }, "ping")] ∧
    Connection.onReceiveData
      { hasSessionServer := true, messageHandler := false, credentials := none,
        socket := some 0, player := none, keepAlive := 0 } (fun s => some s) "ping"
      = Except.ok [] :=
  ⟨(netcore_C9
      { hasSessionServer := true, messageHandler := true, credentials := none,
        socket := some 0, player := none, keepAlive := 0 } (fun s => some s)
      "ping" "ping").1 rfl rfl,
   (netcore_C9
      { hasSessionServer := true, messageHandler := false, credentials := none,
        socket := some 0, player := none, keepAlive := 0 } (fun s => some s)
      "ping" "ping").2 rfl⟩

/-- C10: the `Connection` constructor throws when the session-server argument
is null and when the socket argument is null; every successfully constructed
connection therefore has a non-null registry back-reference and a non-null
socket, and its keepalive timestamp equals the construction time. -/
theorem netcore_C10 (srv : Option Unit) (sock : Option Nat) (now : Nat)
    (c : Connection) :
    Connection.create none sock now
      = Except.error "Cannot create connection without a valid session server object." ∧
    (Connection.create srv none now
        = Except.error "Cannot create connection without a valid session server object." ∨
      Connection.create srv none now
        = Except.error "Cannot create connection without a valid socket.") ∧
    (Connection.create srv sock now = Except.ok c →
      srv ≠ none ∧ sock ≠ none ∧ c.hasSessionServer = true ∧ c.socket = sock ∧
      c.keepAlive = now) := by
  refine ⟨rfl, ?_, ?_⟩
  · cases srv with
    | none => exact Or.inl rfl
    | some u => exact Or.inr rfl
  · intro h
    cases srv with
    | none => simp [Connection.create] at h
    | some u =>
      cases sock with
      | none => simp [Connection.create] at h
      | some sid =>
        simp only [Connection.create, Option.isNone_some, Bool.false_eq_true, if_false,
          Except.ok.injEq] at h
        subst h
        exact ⟨by simp, by simp, rfl, rfl, rfl⟩

/-- Witness for C10 at a concrete construction: both registry back-reference
and socket are present and the keepalive stamp is the construction time. -/
theorem netcore_C10_witness :
    (some () : Option Unit) ≠ none ∧ (some 7 : Option Nat) ≠ none ∧
    Connection.hasSessionServer
      { hasSessionServer := true, messageHandler := false, credentials := none,
        socket := some 7, player := none, keepAlive := 3 } = true ∧
    Connection.socket
      { hasSessionServer := true, messageHandler := false, credentials := none,
        socket := some 7, player := none, keepAlive := 3 } = some 7 ∧
    Connection.keepAlive
      { hasSessionServer := true, messageHandler := false, credentials := none,
        socket := some 7, player := none, keepAlive := 3 } = 3 :=
  (netcore_C10 (some ()) (some 7) 3
    { hasSessionServer := true, messageHandler := false, credentials := none,
      socket := some 7, player := none, keepAlive := 3 }).2.2 rfl
